import Mathlib

/-!
Shallow embedding of the DNA-to-music mapping engine of
`src/backend/dna_processor.py` (class `DNAProcessor`), together with
theorems settling the specification claims about it.

Conventions of the embedding:
* Python `float` time/duration arithmetic is modelled exactly over `ℚ`
  (all literals in the source are decimal and the claims do not depend on
  binary rounding artifacts).
* Python `int` arithmetic is modelled over `ℤ`; `x % n` and `x // n` with a
  positive `n` coincide with Lean's `Int.emod` / `Int.ediv`, which are the
  default `%` and `/` on `ℤ`.
* `int(x)` (truncation toward zero) is `pyTrunc`; `round(x)` (banker's
  rounding) is `pyRound`.
* DNA sequences are Lean `String`s; codons are `List Char` of length 3.
* MIDI note events keep the fields the claims are about:
  pitch, start time, duration, volume.
-/

unseal Rat.ofScientific Rat.mul Rat.inv Rat.add Rat.sub

/-- Python `int(x)`: truncation toward zero. -/
def pyTrunc (q : ℚ) : ℤ := if 0 ≤ q then ⌊q⌋ else ⌈q⌉

/-- Python `round(x)` to the nearest integer, ties to even. -/
def pyRound (q : ℚ) : ℤ :=
  let f := ⌊q⌋
  let r := q - f
  if r < 1/2 then f
  else if 1/2 < r then f + 1
  else if f % 2 = 0 then f else f + 1

/-- Python `round(x, 3)`: three-decimal rounding used for the stored ratios. -/
def pyRound3 (q : ℚ) : ℚ := (pyRound (q * 1000) : ℚ) / 1000

/-- A codon: three bases, as characters. -/
abbrev Codon := List Char

/-- Build a codon (or base-pair key) from a string literal. -/
def cd (s : String) : List Char := s.toList

/-- Membership test in the valid alphabet, Python `b in 'ATGC'`. -/
def isBase (c : Char) : Bool := c = 'A' || c = 'T' || c = 'G' || c = 'C'

/-- `sequence.upper()` applied to the raw input string, as a char list. -/
def upperSeq (dna : String) : List Char := dna.toList.map Char.toUpper

/-- One emitted MIDI note event (track and channel are kept per-track). -/
structure Note where
  pitch : ℤ
  time : ℚ
  dur : ℚ
  vol : ℤ
deriving DecidableEq, Repr

/-- ROOT_KEYS: root key bands over the AT/GC base quotient. -/
def ROOT_KEYS : List ((ℚ × ℚ) × (ℤ × String)) :=
  [((0, 0.7), (11, "B")),
   ((0.7, 0.85), (4, "E")),
   ((0.85, 1.0), (9, "A")),
   ((1.0, 1.15), (2, "D")),
   ((1.15, 1.3), (7, "G")),
   ((1.3, 1.5), (0, "C")),
   ((1.5, 999), (5, "F"))]

/-- MODES: mode bands over the purine/pyrimidine quotient. -/
def MODES : List ((ℚ × ℚ) × (List ℤ × String × String)) :=
  [((0, 0.85), ([0, 1, 3, 5, 6, 8, 10], "locrian", "unstable")),
   ((0.85, 0.92), ([0, 1, 3, 5, 7, 8, 10], "phrygian", "dark")),
   ((0.92, 0.97), ([0, 2, 3, 5, 7, 8, 10], "aeolian", "reflective")),
   ((0.97, 1.03), ([0, 2, 3, 5, 7, 9, 10], "dorian", "sophisticated")),
   ((1.03, 1.08), ([0, 2, 4, 5, 7, 9, 10], "mixolydian", "bluesy")),
   ((1.08, 1.15), ([0, 2, 4, 5, 7, 9, 11], "ionian", "bright")),
   ((1.15, 999), ([0, 2, 4, 6, 7, 9, 11], "lydian", "ethereal"))]

/-- CODON_TABLE: the standard genetic code, as written in the source. -/
def CODON_TABLE : List (Codon × Char) :=
  [(cd "TTT", 'F'), (cd "TTC", 'F'), (cd "TTA", 'L'), (cd "TTG", 'L'),
   (cd "TCT", 'S'), (cd "TCC", 'S'), (cd "TCA", 'S'), (cd "TCG", 'S'),
   (cd "TAT", 'Y'), (cd "TAC", 'Y'), (cd "TAA", '*'), (cd "TAG", '*'),
   (cd "TGT", 'C'), (cd "TGC", 'C'), (cd "TGA", '*'), (cd "TGG", 'W'),
   (cd "CTT", 'L'), (cd "CTC", 'L'), (cd "CTA", 'L'), (cd "CTG", 'L'),
   (cd "CCT", 'P'), (cd "CCC", 'P'), (cd "CCA", 'P'), (cd "CCG", 'P'),
   (cd "CAT", 'H'), (cd "CAC", 'H'), (cd "CAA", 'Q'), (cd "CAG", 'Q'),
   (cd "CGT", 'R'), (cd "CGC", 'R'), (cd "CGA", 'R'), (cd "CGG", 'R'),
   (cd "ATT", 'I'), (cd "ATC", 'I'), (cd "ATA", 'I'), (cd "ATG", 'M'),
   (cd "ACT", 'T'), (cd "ACC", 'T'), (cd "ACA", 'T'), (cd "ACG", 'T'),
   (cd "AAT", 'N'), (cd "AAC", 'N'), (cd "AAA", 'K'), (cd "AAG", 'K'),
   (cd "AGT", 'S'), (cd "AGC", 'S'), (cd "AGA", 'R'), (cd "AGG", 'R'),
   (cd "GTT", 'V'), (cd "GTC", 'V'), (cd "GTA", 'V'), (cd "GTG", 'V'),
   (cd "GCT", 'A'), (cd "GCC", 'A'), (cd "GCA", 'A'), (cd "GCG", 'A'),
   (cd "GAT", 'D'), (cd "GAC", 'D'), (cd "GAA", 'E'), (cd "GAG", 'E'),
   (cd "GGT", 'G'), (cd "GGC", 'G'), (cd "GGA", 'G'), (cd "GGG", 'G')]

/-- AMINO_ACID_CHORDS: chord name and scale-degree offsets per amino acid. -/
def AMINO_ACID_CHORDS : List (Char × (String × List ℕ)) :=
  [('L', ("min", [0, 2, 4])), ('I', ("min", [0, 2, 4])), ('V', ("min", [0, 2, 4])),
   ('M', ("min", [0, 2, 4])), ('A', ("min", [0, 2, 4])),
   ('F', ("maj7", [0, 2, 4, 6])), ('Y', ("min7", [0, 2, 4, 6])),
   ('W', ("maj9", [0, 2, 4, 6, 1])),
   ('S', ("maj", [0, 2, 4])), ('T', ("maj", [0, 2, 4])),
   ('N', ("maj", [0, 2, 4])), ('Q', ("maj", [0, 2, 4])),
   ('K', ("dom7", [0, 2, 4, 5])), ('R', ("dom7", [0, 2, 4, 5])),
   ('H', ("dom7", [0, 2, 4, 5])),
   ('D', ("min7", [0, 2, 4, 5])), ('E', ("min7", [0, 2, 4, 5])),
   ('P', ("sus4", [0, 3, 4])), ('G', ("sus2", [0, 1, 4])), ('C', ("dim", [0, 2, 4])),
   ('*', ("rest", []))]

/-- CODON_FREQUENCY: human codon usage per 1000 codons. -/
def CODON_FREQUENCY : List (Codon × ℚ) :=
  [(cd "TTT", 17.6), (cd "TTC", 20.3), (cd "TTA", 7.7), (cd "TTG", 12.9),
   (cd "TCT", 15.2), (cd "TCC", 17.7), (cd "TCA", 12.2), (cd "TCG", 4.4),
   (cd "TAT", 12.2), (cd "TAC", 15.3), (cd "TAA", 1.0), (cd "TAG", 0.8),
   (cd "TGT", 10.6), (cd "TGC", 12.6), (cd "TGA", 1.6), (cd "TGG", 13.2),
   (cd "CTT", 13.2), (cd "CTC", 19.6), (cd "CTA", 7.2), (cd "CTG", 39.6),
   (cd "CCT", 17.5), (cd "CCC", 19.8), (cd "CCA", 16.9), (cd "CCG", 6.9),
   (cd "CAT", 10.9), (cd "CAC", 15.1), (cd "CAA", 12.3), (cd "CAG", 34.2),
   (cd "CGT", 4.5), (cd "CGC", 10.4), (cd "CGA", 6.2), (cd "CGG", 11.4),
   (cd "ATT", 16.0), (cd "ATC", 20.8), (cd "ATA", 7.5), (cd "ATG", 22.0),
   (cd "ACT", 13.1), (cd "ACC", 18.9), (cd "ACA", 15.1), (cd "ACG", 6.1),
   (cd "AAT", 17.0), (cd "AAC", 19.1), (cd "AAA", 24.4), (cd "AAG", 31.9),
   (cd "AGT", 12.1), (cd "AGC", 19.5), (cd "AGA", 12.2), (cd "AGG", 12.0),
   (cd "GTT", 11.0), (cd "GTC", 14.5), (cd "GTA", 7.1), (cd "GTG", 28.1),
   (cd "GCT", 18.4), (cd "GCC", 27.7), (cd "GCA", 15.8), (cd "GCG", 7.4),
   (cd "GAT", 21.8), (cd "GAC", 25.1), (cd "GAA", 29.0), (cd "GAG", 39.6),
   (cd "GGT", 10.8), (cd "GGC", 22.2), (cd "GGA", 16.5), (cd "GGG", 16.5)]

/-- CODON_PITCH: direct codon-to-pitch offsets (stop codons map to -1). -/
def CODON_PITCH : List (Codon × ℤ) :=
  [(cd "TTT", 0), (cd "TTC", 1),
   (cd "TTA", 2), (cd "TTG", 3), (cd "CTT", 4), (cd "CTC", 5), (cd "CTA", 6), (cd "CTG", 7),
   (cd "ATT", 8), (cd "ATC", 9), (cd "ATA", 10),
   (cd "ATG", 12),
   (cd "GTT", 3), (cd "GTC", 5), (cd "GTA", 7), (cd "GTG", 8),
   (cd "TCT", 10), (cd "TCC", 11), (cd "TCA", 12), (cd "TCG", 13), (cd "AGT", 14), (cd "AGC", 15),
   (cd "CCT", 5), (cd "CCC", 7), (cd "CCA", 9), (cd "CCG", 11),
   (cd "ACT", 12), (cd "ACC", 13), (cd "ACA", 14), (cd "ACG", 15),
   (cd "GCT", 7), (cd "GCC", 9), (cd "GCA", 11), (cd "GCG", 12),
   (cd "TAT", 14), (cd "TAC", 16),
   (cd "CAT", 10), (cd "CAC", 12),
   (cd "CAA", 15), (cd "CAG", 17),
   (cd "AAT", 17), (cd "AAC", 19),
   (cd "AAA", 19), (cd "AAG", 21),
   (cd "GAT", 14), (cd "GAC", 16),
   (cd "GAA", 17), (cd "GAG", 19),
   (cd "TGT", 8), (cd "TGC", 10),
   (cd "TGG", 22),
   (cd "CGT", 18), (cd "CGC", 19), (cd "CGA", 20), (cd "CGG", 21), (cd "AGA", 22), (cd "AGG", 23),
   (cd "GGT", 0), (cd "GGC", 2), (cd "GGA", 4), (cd "GGG", 5),
   (cd "TAA", -1), (cd "TAG", -1), (cd "TGA", -1)]

/-- FIRST_BASE_DEGREE table. -/
def FIRST_BASE_DEGREE : List (Char × ℕ) := [('A', 0), ('T', 3), ('G', 4), ('C', 6)]

/-- FIRST_BASE_DEGREE.get(base, 0). -/
def fbDegree (c : Char) : ℕ := (FIRST_BASE_DEGREE.lookup c).getD 0

/-- SECOND_BASE_OCTAVE table. -/
def SECOND_BASE_OCTAVE : List (Char × ℤ) := [('A', -12), ('T', -5), ('G', 0), ('C', 12)]

/-- RHYTHM_PATTERNS keyed by the last two bases. -/
def RHYTHM_PATTERNS : List (List Char × List ℚ) :=
  [(cd "AA", [2.0, 1.0]),
   (cd "AT", [1.0, 1.0, 1.0]),
   (cd "AG", [0.66, 0.66, 0.66]),
   (cd "AC", [0.5, 0.5, 1.0]),
   (cd "TA", [1.5, 0.5]),
   (cd "TT", [1.0, 0.5, 0.5]),
   (cd "TG", [0.75, 0.75, 0.5]),
   (cd "TC", [0.5, 1.5]),
   (cd "GA", [1.0, 0.66, 0.66, 0.66]),
   (cd "GT", [0.5, 0.5, 0.5, 0.5]),
   (cd "GG", [1.0, 1.0]),
   (cd "GC", [0.5, 1.0, 0.5]),
   (cd "CA", [2.0]),
   (cd "CT", [0.33, 0.33, 0.33, 1.0]),
   (cd "CG", [0.75, 0.25, 1.0]),
   (cd "CC", [0.25, 0.25, 0.5, 1.0])]

/-- CONTOUR_PATTERNS values, in the source's key order
(rising, falling, wave, zigzag, arch, valley, stepwise, leaping). -/
def CONTOUR_LIST : List (List ℤ) :=
  [[0, 1, 2, 3, 4, 5, 4, 3],
   [5, 4, 3, 2, 1, 0, 1, 2],
   [0, 2, 4, 3, 1, 3, 5, 4],
   [0, 4, 1, 5, 2, 6, 3, 5],
   [0, 2, 4, 5, 4, 2, 0, 1],
   [4, 2, 0, 1, 0, 2, 4, 3],
   [0, 1, 0, 2, 1, 3, 2, 4],
   [0, 4, 2, 6, 1, 5, 3, 6]]

/-- PHRASE_LENGTHS. -/
def PHRASE_LENGTHS : List ℕ := [4, 6, 8, 3, 5, 7]

/-- OCTAVE_PATTERNS values, in the source's key order
(stable, lift, drop, bounce, climb, descend). -/
def OCTAVE_LIST : List (List ℤ) :=
  [[0, 0, 0, 0, 0, 0, 0, 0],
   [0, 0, 0, 0, 12, 12, 12, 0],
   [0, 0, 12, 12, 0, 0, -12, 0],
   [0, 12, 0, 12, 0, -12, 0, 12],
   [0, 0, 0, 12, 12, 12, 12, 12],
   [12, 12, 12, 0, 0, 0, -12, -12]]

/-- Bass rhythm patterns local to `_generate_bass_offset`. -/
def bassPatterns : List (List ℚ) :=
  [[1.5, 0.5, 1.0, 1.0],
   [1.0, 1.0, 1.0, 1.0],
   [2.0, 1.0, 1.0],
   [1.0, 0.5, 0.5, 1.0, 1.0],
   [0.75, 0.75, 0.5, 1.0, 1.0],
   [1.5, 1.5, 1.0]]

/-- A detected motif: repeating pattern, its occurrence count, its length. -/
structure Motif where
  pattern : List Char
  count : ℕ
  length : ℕ
deriving DecidableEq, Repr

/-- The analysis record returned by `analyze`. -/
structure Analysis where
  key : String
  rootNote : ℤ
  mode : String
  scale : List ℤ
  character : String
  tempo : ℤ
  gc : ℚ
  atGcQuot : ℚ
  puPyQuot : ℚ
  codons : List Codon
  aminoAcids : List Char
  codonCount : ℕ
  motifs : List Motif
  motifCount : ℕ
  length : ℕ
deriving DecidableEq, Repr

/-- `_default_analysis`. -/
def defaultAnalysis : Analysis :=
  { key := "C", rootNote := 0, mode := "aeolian", scale := [0, 2, 3, 5, 7, 8, 10],
    character := "reflective", tempo := 72, gc := 50, atGcQuot := 1, puPyQuot := 1,
    codons := [], aminoAcids := [], codonCount := 0, motifs := [], motifCount := 0,
    length := 0 }

/-- Linear scan of a band table, returning the first matching band's value. -/
def scanBandsO {α : Type} (r : ℚ) : List ((ℚ × ℚ) × α) → Option α
  | [] => none
  | ((lo, hi), v) :: rest => if lo ≤ r ∧ r < hi then some v else scanBandsO r rest

/-- `_get_root_key`: band scan with defensive fallback to (0, 'C'). -/
def getRootKey (r : ℚ) : ℤ × String := (scanBandsO r ROOT_KEYS).getD (0, "C")

/-- `_get_mode`: band scan with defensive fallback to aeolian. -/
def getMode (r : ℚ) : List ℤ × String × String :=
  (scanBandsO r MODES).getD ([0, 2, 3, 5, 7, 8, 10], "aeolian", "reflective")

/-- `_get_codons`: non-overlapping triplets of valid bases, partial tail dropped,
triples containing an invalid character skipped whole. -/
def getCodons : List Char → List Codon
  | a :: b :: c :: rest =>
    (if ([a, b, c] : List Char).all isBase then [[a, b, c]] else []) ++ getCodons rest
  | _ => []

/-- G+C count of a sequence. -/
def gcCountOf (seq : List Char) : ℕ := seq.count 'G' + seq.count 'C'

/-- A+T count of a sequence. -/
def atCountOf (seq : List Char) : ℕ := seq.count 'A' + seq.count 'T'

/-- GC percentage, `(gc_count / length) * 100`. -/
def gcContentOf (seq : List Char) : ℚ := ((gcCountOf seq : ℚ) / (seq.length : ℚ)) * 100

/-- The AT/GC quotient with the source's pure-AT fallback constant 1.5. -/
def atGcOf (seq : List Char) : ℚ :=
  if 0 < gcCountOf seq then (atCountOf seq : ℚ) / (gcCountOf seq : ℚ) else 1.5

/-- The purine/pyrimidine quotient with fallback constant 1.0. -/
def puPyOf (seq : List Char) : ℚ :=
  let pu := seq.count 'A' + seq.count 'G'
  let py := seq.count 'T' + seq.count 'C'
  if 0 < py then (pu : ℚ) / (py : ℚ) else 1

/-- `tempo = int(60 + (gc_content / 100) * 40)`. -/
def tempoOf (seq : List Char) : ℤ := pyTrunc (60 + gcContentOf seq / 100 * 40)

/-- Sliding windows of length `L` over the sequence. -/
def windowsAt (seq : List Char) (L : ℕ) : List (List Char) :=
  (List.range (seq.length + 1 - L)).map (fun i => (seq.drop i).take L)

/-- Increment the count of key `k` in an association list, preserving
first-insertion order (Python `Counter` iteration order). -/
def bumpCount (k : List Char) : List (List Char × ℕ) → List (List Char × ℕ)
  | [] => [(k, 1)]
  | (k', n) :: rest => if k' = k then (k', n + 1) :: rest else (k', n) :: bumpCount k rest

/-- Tally all-valid windows in first-occurrence order. -/
def tallyWindows (ws : List (List Char)) : List (List Char × ℕ) :=
  ws.foldl (fun acc w => if w.all isBase then bumpCount w acc else acc) []

/-- Patterns of one window length occurring at least twice. -/
def motifsOfLength (seq : List Char) (L : ℕ) : List Motif :=
  (tallyWindows (windowsAt seq L)).filterMap
    (fun p => if 2 ≤ p.2 then some ⟨p.1, p.2, L⟩ else none)

/-- Strict order on motifs by key `(-count, -length)`. -/
def motifLt (a b : Motif) : Bool :=
  b.count < a.count || (a.count = b.count && b.length < a.length)

/-- Stable insertion into a list sorted by `motifLt`. -/
def insMotif (x : Motif) : List Motif → List Motif
  | [] => [x]
  | y :: ys => if motifLt y x then y :: insMotif x ys else x :: y :: ys

/-- Stable insertion sort by `(-count, -length)` (Python `list.sort` is stable). -/
def sortMotifs : List Motif → List Motif
  | [] => []
  | x :: xs => insMotif x (sortMotifs xs)

/-- `_detect_motifs`: window lengths 6..18 step 3, keep counts ≥ 2,
sort by (-count, -length), top 5. -/
def detectMotifs (seq : List Char) : List Motif :=
  (sortMotifs (([6, 9, 12, 15, 18].map (motifsOfLength seq)).flatten)).take 5

/-- `analyze`: the complete sequence analysis. -/
def analyze (dna : String) : Analysis :=
  if dna.length < 3 then defaultAnalysis
  else
    let seq := upperSeq dna
    let atR := atGcOf seq
    let rk := getRootKey atR
    let puR := puPyOf seq
    let md := getMode puR
    let codons := getCodons seq
    { key := rk.2, rootNote := rk.1,
      mode := md.2.1, scale := md.1, character := md.2.2,
      tempo := tempoOf seq, gc := gcContentOf seq,
      atGcQuot := pyRound3 atR, puPyQuot := pyRound3 puR,
      codons := codons,
      aminoAcids := codons.map (fun c => (CODON_TABLE.lookup c).getD 'X'),
      codonCount := codons.length,
      motifs := detectMotifs seq, motifCount := (detectMotifs seq).length,
      length := seq.length }

/-- `_snap_to_scale`: snap a pitch to the nearest tone of the scale
(first minimal interval wins; octave fixed up to stay within 6 semitones). -/
def snapToScale (pitch root : ℤ) (scale : List ℤ) : ℤ :=
  let pc := (pitch - root) % 12
  let best := scale.foldl
    (fun (acc : ℤ × ℤ) interval =>
      let d := min |pc - interval| (12 - |pc - interval|)
      if d < acc.1 then (d, interval) else acc)
    (12, 0)
  let octave := (pitch - root) / 12
  let snapped := root + octave * 12 + best.2
  if snapped > pitch + 6 then snapped - 12
  else if snapped < pitch - 6 then snapped + 12
  else snapped

/-- Clamp to the melody's playable MIDI range, `max(48, min(84, p))`. -/
def clampMel (p : ℤ) : ℤ := max 48 (min 84 p)

/-- `scale[d % len(scale)]`, totalized with default 0. -/
def scaleAt (scale : List ℤ) (d : ℕ) : ℤ := scale.getD (d % scale.length) 0

/-- Length in beats of the intro section (`_generate_intro` returns 8.0). -/
def introBeats : ℚ := 8

/-- Track-0 (melody) notes of `_generate_intro`: rising ATG arpeggio,
then the same an octave up and faster. -/
def introMelodyNotes (root : ℤ) (scale : List ℤ) : List Note :=
  [{ pitch := clampMel (60 + root + scaleAt scale 0), time := 1, dur := 1.5, vol := 50 },
   { pitch := clampMel (60 + root + scaleAt scale 2), time := 2.5, dur := 1.5, vol := 60 },
   { pitch := clampMel (60 + root + scaleAt scale 4), time := 4, dur := 1.5, vol := 70 },
   { pitch := clampMel (72 + root + scaleAt scale 0), time := 5.5, dur := 0.5, vol := 70 },
   { pitch := clampMel (72 + root + scaleAt scale 2), time := 6, dur := 0.5, vol := 70 },
   { pitch := clampMel (72 + root + scaleAt scale 4), time := 6.5, dur := 0.5, vol := 70 }]

/-- Track-3 (pad) notes of `_generate_intro`: staggered swell chord. -/
def introPadNotes (root : ℤ) (scale : List ℤ) : List Note :=
  [{ pitch := max 48 (min 72 (54 + root + scale.getD 0 0)), time := 0, dur := 8, vol := 30 },
   { pitch := max 48 (min 72 (54 + root + scale.getD 2 0)), time := 0.5, dur := 7.5, vol := 35 },
   { pitch := max 48 (min 72 (54 + root + scale.getD 4 0)), time := 1, dur := 7, vol := 40 }]

/-- Track-2 (bass) notes of `_generate_intro`. -/
def introBassNotes (root : ℤ) (scale : List ℤ) : List Note :=
  let p := max 28 (min 48 (36 + root + scale.getD 0 0))
  [{ pitch := p, time := 0, dur := 3, vol := 50 },
   { pitch := p, time := 4, dur := 3, vol := 60 }]

/-- Track-1 (harmony) notes of `_generate_intro`. -/
def introHarmonyNotes (root : ℤ) (scale : List ℤ) : List Note :=
  [0, 2, 4].map fun d =>
    { pitch := max 36 (min 72 (48 + root + scaleAt scale d)), time := 4, dur := 4, vol := 45 }

/-- Outro note volumes selected by the identity of the stop codon. -/
def outroVols (sc : Codon) : List ℤ :=
  if sc = cd "TAG" then [70, 60, 50, 40]
  else if sc = cd "TGA" then [50, 45, 40, 35]
  else [60, 50, 40, 30]

/-- Outro tempo feel selected by the identity of the stop codon. -/
def tempoFeel (sc : Codon) : ℚ :=
  if sc = cd "TAG" then 1 else if sc = cd "TGA" then 1.2 else 1

/-- Track-0 (melody) notes of `_generate_outro`: two descending passes,
dropping an octave for the second. -/
def outroMelodyNotes (root : ℤ) (scale : List ℤ) (start : ℚ) (sc : Codon) : List Note :=
  (List.range 6).map fun i =>
    let octave : ℤ := if i < 3 then 72 else 60
    let d := ([4, 2, 0, 4, 2, 0].getD i 0 : ℕ)
    let feel := tempoFeel sc
    { pitch := clampMel (octave + root + scaleAt scale d),
      time := start + (i : ℚ) * feel,
      dur := feel * 0.9,
      vol := (outroVols sc).getD (min i 3) 0 }

/-- Track-3 (pad) notes of `_generate_outro`: sustained final chord. -/
def outroPadNotes (root : ℤ) (scale : List ℤ) (start : ℚ) : List Note :=
  [0, 2, 4].map fun d =>
    { pitch := max 48 (min 72 (54 + root + scaleAt scale d)), time := start, dur := 8, vol := 35 }

/-- Track-2 (bass) notes of `_generate_outro`. -/
def outroBassNotes (root : ℤ) (scale : List ℤ) (start : ℚ) : List Note :=
  let p := max 28 (min 48 (36 + root + scale.getD 0 0))
  [{ pitch := p, time := start, dur := 4, vol := 55 },
   { pitch := p, time := start + 4, dur := 4, vol := 40 }]

/-- Track-1 (harmony) notes of `_generate_outro`: V chord then I chord. -/
def outroHarmonyNotes (root : ℤ) (scale : List ℤ) (start : ℚ) : List Note :=
  (([4, 6, 1] : List ℕ).map fun d =>
    { pitch := max 36 (min 72 (48 + root + scaleAt scale d)),
      time := start, dur := 3.5, vol := 45 }) ++
  (([0, 2, 4] : List ℕ).map fun d =>
    { pitch := max 36 (min 72 (48 + root + scaleAt scale d)),
      time := start + 4, dur := 4, vol := 40 })

/-- Stop-codon test (`codon in ['TAA', 'TAG', 'TGA']`). -/
def isStop (c : Codon) : Bool := c = cd "TAA" || c = cd "TAG" || c = cd "TGA"

/-- Index of the first ATG codon, scanning like `_find_structure_codons`. -/
def firstStartAux : List Codon → ℕ → Option ℕ
  | [], _ => none
  | c :: rest, i => if c = cd "ATG" then some i else firstStartAux rest (i + 1)

/-- `_find_structure_codons` result (the fields the pipeline consumes). -/
structure StructInfo where
  firstStart : Option ℕ
  lastStop : Option Codon
  hasStart : Bool
  hasStop : Bool
deriving DecidableEq, Repr

/-- `_find_structure_codons`. -/
def findStructureCodons (codons : List Codon) : StructInfo :=
  let stops := codons.filter isStop
  { firstStart := firstStartAux codons 0,
    lastStop := stops.getLast?,
    hasStart := (firstStartAux codons 0).isSome,
    hasStop := !stops.isEmpty }

/-- Sum of the code points of a flattened codon run (`sum(ord(c) for c in s)`). -/
def ordSum (cs : List Codon) : ℕ := (cs.flatten.map Char.toNat).sum

/-- Mutable state of the melody generation loop. -/
structure MelCtx where
  timePos : ℚ
  phrasePos : ℕ
  contour : List ℤ
  lastPitch : ℤ
  lastNoteEnd : ℚ
deriving DecidableEq, Repr

/-- Fixed parameters of the melody generation loop. -/
structure MelParams where
  root : ℤ
  scale : List ℤ
  endTime : ℚ
  totalLen : ℕ
  contourHash : ℕ
  octavePattern : List ℤ
  phraseLength : ℕ
  baseOctave : ℤ
  motifPats : List (List Char)
deriving DecidableEq, Repr

/-- Substring test, Python `sub in s` (always true for empty `sub`). -/
def isSubOf (sub : List Char) : List Char → Bool
  | [] => sub.isEmpty
  | c :: rest => sub.isPrefixOf (c :: rest) || isSubOf sub rest

/-- The emitted pitch of one melody note: codon pitch plus contour and octave
modifiers, range-clamped, scale-snapped, clamped again, then the defensive
same-pitch overlap shift (itself snapped and clamped). -/
def melodyPitch (P : MelParams) (c : Codon) (ctx : MelCtx) : ℤ :=
  let b2 := c.getD 1 'A'
  let codonPitchOff := (CODON_PITCH.lookup c).getD 12
  let contourMod := ctx.contour.getD (ctx.phrasePos % ctx.contour.length) 0 - 3
  let octaveShift := P.octavePattern.getD (ctx.phrasePos % P.octavePattern.length) 0
  let baseOctMod := (SECOND_BASE_OCTAVE.lookup b2).getD 0
  let rawPitch := P.baseOctave + P.root + (codonPitchOff + contourMod) + baseOctMod + octaveShift
  let pitch4 := clampMel (snapToScale (clampMel rawPitch) P.root P.scale)
  if pitch4 = ctx.lastPitch ∧ ctx.timePos < ctx.lastNoteEnd then
    clampMel (snapToScale (pitch4 + (if pitch4 < 78 then 7 else -7)) P.root P.scale)
  else pitch4

/-- The slot duration of one melody note: codon-frequency base duration times
the rhythm-pattern entry, phrase-boundary stretched, quantized to
quarter-beats, floored at 0.25. -/
def melodyFinalDur (P : MelParams) (c : Codon) (idx : ℕ) (ctx : MelCtx) : ℚ :=
  let b2 := c.getD 1 'A'
  let b3 := c.getD 2 'A'
  let rhythmPat := (RHYTHM_PATTERNS.lookup [b2, b3]).getD [1]
  let freq := (CODON_FREQUENCY.lookup c).getD 15
  let baseDur := max 0.5 (min 2 (2 - freq / 40 * 1.5))
  let dur0 := baseDur * rhythmPat.getD (idx % rhythmPat.length) 1
  let dur1 :=
    if ctx.phrasePos = 0 then dur0 * 1.3
    else if ctx.phrasePos = P.phraseLength - 1 then dur0 * 1.5
    else dur0
  max 0.25 ((pyRound (dur1 * 4) : ℚ) / 4)

/-- The volume of one melody note: phrase-shaped dynamics plus motif boost. -/
def melodyVol (P : MelParams) (c : Codon) (ctx : MelCtx) : ℤ :=
  let progress : ℚ := (ctx.phrasePos : ℚ) / ((max 1 (P.phraseLength - 1) : ℕ) : ℚ)
  let dynVol : ℤ :=
    if progress < 0.5 then 70 + pyTrunc (progress * 30)
    else 85 - pyTrunc ((progress - 0.5) * 20)
  if P.motifPats.any (fun m => isSubOf c m) then min 100 (dynVol + 15) else dynVol

/-- The loop state after emitting one melody note (time advance, phrase
position update, possible contour reselection at a phrase boundary). -/
def melodyCtxNext (P : MelParams) (c : Codon) (rest : List Codon) (idx : ℕ)
    (ctx : MelCtx) : MelCtx :=
  let pp1 := ctx.phrasePos + 1
  let atBoundary := P.phraseLength ≤ pp1
  { timePos := ctx.timePos + melodyFinalDur P c idx ctx,
    phrasePos := if atBoundary then 0 else pp1,
    contour :=
      if atBoundary then
        if idx + 3 < P.totalLen then
          CONTOUR_LIST.getD
            ((P.contourHash + ((rest.headD (cd "AAA")).getD 0 'A').toNat % 3) % 8) []
        else ctx.contour
      else ctx.contour,
    lastPitch := melodyPitch P c ctx,
    lastNoteEnd := ctx.timePos + melodyFinalDur P c idx ctx * 0.85 }

/-- The body of `_generate_melody_offset`'s while loop. Terminates because
`codon_idx` strictly increases and the loop requires `codon_idx < len(codons)`
(so the remaining codon list shrinks each iteration). -/
def melodyAux (P : MelParams) : List Codon → ℕ → MelCtx → List Note
  | [], _, _ => []
  | c :: rest, idx, ctx =>
    if ctx.timePos < P.endTime then
      if CODON_TABLE.lookup c = some '*' then
        melodyAux P rest (idx + 1)
          { ctx with timePos := ctx.timePos + 2, lastPitch := -1 }
      else
        if ((CODON_PITCH.lookup c).getD 12) = -1 then
          melodyAux P rest (idx + 1) { ctx with timePos := ctx.timePos + 1 }
        else
          { pitch := melodyPitch P c ctx, time := ctx.timePos,
            dur := melodyFinalDur P c idx ctx * 0.85, vol := melodyVol P c ctx } ::
            melodyAux P rest (idx + 1) (melodyCtxNext P c rest idx ctx)
    else []

/-- `_generate_melody_offset`: per-sequence melodic character selection then
the note emission loop. -/
def melodyOffset (codons : List Codon) (root : ℤ) (scale : List ℤ)
    (totalBeats : ℚ) (motifPats : List (List Char)) (timeOffset : ℚ) : List Note :=
  if codons.isEmpty then []
  else
    let n := codons.length
    let contourHash := if 3 ≤ n then ordSum (codons.take 3) % 8 else 0
    let contour0 := if 3 ≤ n then CONTOUR_LIST.getD contourHash [] else CONTOUR_LIST.getD 2 []
    let octavePattern :=
      if 6 ≤ n then OCTAVE_LIST.getD (ordSum ((codons.drop (n / 2)).take 3) % 6) []
      else OCTAVE_LIST.getD 0 []
    let phraseLength := PHRASE_LENGTHS.getD (n % 6) 4
    let seed := ordSum (codons.take (min 10 n))
    let baseOctave : ℤ := 60 + ((seed % 3 : ℕ) - 1 : ℤ) * 12
    melodyAux
      { root := root, scale := scale, endTime := timeOffset + totalBeats,
        totalLen := n, contourHash := contourHash, octavePattern := octavePattern,
        phraseLength := phraseLength, baseOctave := baseOctave, motifPats := motifPats }
      codons 0
      { timePos := timeOffset, phrasePos := 0, contour := contour0,
        lastPitch := -1, lastNoteEnd := 0 }

/-- Loop of `_generate_harmony_offset`, fueled; time advances 4 beats per
iteration so any fuel at least `ceil(totalBeats / 4)` reaches the exit. -/
def harmonyAux (codons : List Codon) (root : ℤ) (scale : List ℤ) (endTime : ℚ) :
    ℕ → ℕ → ℚ → List Note
  | 0, _, _ => []
  | fuel + 1, idx, t =>
    if t < endTime then
      let c := codons.getD (idx % codons.length) (cd "AAA")
      let aa := (CODON_TABLE.lookup c).getD 'A'
      let chord := (AMINO_ACID_CHORDS.lookup aa).getD ("maj", [0, 2, 4])
      if chord.1 = "rest" then harmonyAux codons root scale endTime fuel (idx + 1) (t + 4)
      else
        let rd := fbDegree (c.getD 0 'A')
        (chord.2.map fun off =>
          let pis := scale.getD ((rd + off) % scale.length) 0
          let oa : ℤ := ((rd + off) / scale.length : ℕ) * 12
          { pitch := max 36 (min 72 (48 + root + pis + oa)),
            time := t, dur := 4 * 0.95, vol := 55 }) ++
        harmonyAux codons root scale endTime fuel (idx + 1) (t + 4)
    else []

/-- `_generate_harmony_offset`. -/
def harmonyOffset (codons : List Codon) (root : ℤ) (scale : List ℤ)
    (totalBeats : ℚ) (timeOffset : ℚ) : List Note :=
  if codons.isEmpty then []
  else harmonyAux codons root scale (timeOffset + totalBeats)
    ((⌈totalBeats / 4⌉).toNat + 1) 0 timeOffset

/-- Inner loop of one bass chord cycle: walk the pattern with its running
offset inside the 4-beat slot. -/
def bassChordNotes (root : ℤ) (scale : List ℤ) (rd : ℕ) (t : ℚ) :
    List ℚ → ℕ → ℚ → List Note
  | [], _, _ => []
  | d :: ds, i, patTime =>
    let degree := if i % 2 = 0 then rd else (rd + 4) % scale.length
    let pitch := max 28 (min 48 (36 + root + scaleAt scale degree))
    { pitch := pitch, time := t + patTime, dur := d * 0.8,
      vol := if i = 0 then 70 else 60 } ::
    bassChordNotes root scale rd t ds (i + 1) (patTime + d)

/-- Loop of `_generate_bass_offset`, fueled (time advances 4 per iteration). -/
def bassAux (codons : List Codon) (root : ℤ) (scale : List ℤ) (endTime : ℚ) :
    ℕ → ℕ → ℚ → List Note
  | 0, _, _ => []
  | fuel + 1, idx, t =>
    if t < endTime then
      let c := codons.getD (idx % codons.length) (cd "AAA")
      if CODON_TABLE.lookup c = some '*' then
        bassAux codons root scale endTime fuel (idx + 1) (t + 4)
      else
        let rd := fbDegree (c.getD 0 'A')
        let pat := bassPatterns.getD ((c.getD 1 'A').toNat % bassPatterns.length) []
        bassChordNotes root scale rd t pat 0 0 ++
        bassAux codons root scale endTime fuel (idx + 1) (t + 4)
    else []

/-- `_generate_bass_offset`. -/
def bassOffset (codons : List Codon) (root : ℤ) (scale : List ℤ)
    (totalBeats : ℚ) (timeOffset : ℚ) : List Note :=
  if codons.isEmpty then []
  else bassAux codons root scale (timeOffset + totalBeats)
    ((⌈totalBeats / 4⌉).toNat + 1) 0 timeOffset

/-- Loop of `_generate_pad_offset`, fueled (time advances 8 per iteration,
codon index advances 2). Pad chords always last `pad_duration = 8` beats:
the source applies no clamping to the remaining piece time. -/
def padAux (codons : List Codon) (root : ℤ) (scale : List ℤ) (endTime : ℚ) :
    ℕ → ℕ → ℚ → List Note
  | 0, _, _ => []
  | fuel + 1, idx, t =>
    if t < endTime then
      if CODON_TABLE.lookup (codons.getD (idx % codons.length) (cd "AAA")) = some '*' then
        padAux codons root scale endTime fuel (idx + 2) (t + 8)
      else
        (([0, 2, 4] : List ℕ).map fun off =>
          { pitch := max 48 (min 72 (54 + root +
              scale.getD ((fbDegree ((codons.getD (idx % codons.length) (cd "AAA")).getD 0 'A') +
                off) % scale.length) 0)),
            time := t, dur := 8, vol := 40 }) ++
        padAux codons root scale endTime fuel (idx + 2) (t + 8)
    else []

/-- `_generate_pad_offset`. -/
def padOffset (codons : List Codon) (root : ℤ) (scale : List ℤ)
    (totalBeats : ℚ) (timeOffset : ℚ) : List Note :=
  if codons.isEmpty then []
  else padAux codons root scale (timeOffset + totalBeats)
    ((⌈totalBeats / 8⌉).toNat + 1) 0 timeOffset

/-- Note list of `_generate_simple_midi`: one note per valid base of the
uppercased input, stopping once `time_pos >= duration * 2`. -/
def simpleAux (analysis : Analysis) (duration : ℚ) : List Char → ℕ → List Note
  | [], _ => []
  | ch :: rest, t =>
    if duration * 2 ≤ (t : ℚ) then []
    else if isBase ch then
      { pitch := 60 + analysis.rootNote + scaleAt analysis.scale (fbDegree ch),
        time := (t : ℚ), dur := 1, vol := 70 } :: simpleAux analysis duration rest (t + 1)
    else simpleAux analysis duration rest t

/-- `_generate_simple_midi` fallback note list. -/
def simpleNotes (dna : String) (duration : ℚ) (analysis : Analysis) : List Note :=
  simpleAux analysis duration (upperSeq dna) 0

/-- Whether an intro is generated: the sequence's codons contain an ATG and
the first ATG sits at index 0 (`structure['has_start'] and
structure['first_start'] == 0`). -/
def hasIntroOf (codons : List Codon) : Bool :=
  (findStructureCodons codons).hasStart &&
    decide ((findStructureCodons codons).firstStart = some 0)

/-- The main section's time offset: 8 beats after an intro, else 0. -/
def timeOffsetCalc (codons : List Codon) : ℚ :=
  if hasIntroOf codons then introBeats else 0

/-- The main-section codons: the leading ATG is dropped when an intro is
generated, and all stop codons are removed when any stop codon occurs. -/
def mainCodonsCalc (codons : List Codon) : List Codon :=
  let mainBase := if hasIntroOf codons then codons.drop 1 else codons
  if (findStructureCodons codons).hasStop then mainBase.filter (fun c => !(isStop c))
  else mainBase

/-- The main-section length in beats: total minus the intro beats minus the
8 beats reserved for the outro, floored at 8. -/
def mainBeatsCalc (codons : List Codon) (totalBeats : ℚ) : ℚ :=
  max 8 (totalBeats - (if hasIntroOf codons then introBeats else 0) -
    (if (findStructureCodons codons).hasStop then 8 else 0))

/-- The stop codon owning the outro: the last stop codon, when any occurs. -/
def outroStopCalc (codons : List Codon) : Option Codon :=
  if (findStructureCodons codons).hasStop then (findStructureCodons codons).lastStop
  else none

/-- The requested piece length in beats, `int(duration * (tempo / 60))`. -/
def totalBeatsCalc (d : ℚ) (tempo : ℤ) : ℚ := (pyTrunc (d * (tempo : ℚ) / 60) : ℤ)

/-- The generated full-path score: the structural decisions of
`generate_midi` plus the four main-section note lists. -/
structure FullResult where
  analysis : Analysis
  totalBeats : ℚ
  hasIntro : Bool
  timeOffset : ℚ
  mainCodons : List Codon
  mainBeats : ℚ
  outroStop : Option Codon
  melodyMain : List Note
  harmonyMain : List Note
  bassMain : List Note
  padMain : List Note
deriving DecidableEq, Repr

/-- Result of `generate_midi`: short-sequence fallback or the full pipeline. -/
inductive GenResult where
  | simple (analysis : Analysis) (notes : List Note)
  | full (r : FullResult)
deriving DecidableEq, Repr

/-- `generate_midi`: analysis, structural intro/outro decisions, and the four
main-section generators (the MIDI file-writing side effects are out of the
claims' scope; the note events are the score). -/
def generateMidi (dna : String) (duration : ℚ) : GenResult :=
  let analysis := analyze dna
  if analysis.codonCount < 3 then
    .simple analysis (simpleNotes dna duration analysis)
  else
    let root := analysis.rootNote
    let scale := analysis.scale
    let codons := analysis.codons
    let totalBeats := totalBeatsCalc duration analysis.tempo
    let timeOffset := timeOffsetCalc codons
    let mainCodons := mainCodonsCalc codons
    let mainBeats := mainBeatsCalc codons totalBeats
    let motPats := analysis.motifs.map (·.pattern)
    .full
      { analysis := analysis, totalBeats := totalBeats, hasIntro := hasIntroOf codons,
        timeOffset := timeOffset, mainCodons := mainCodons, mainBeats := mainBeats,
        outroStop := outroStopCalc codons,
        melodyMain := melodyOffset mainCodons root scale mainBeats motPats timeOffset,
        harmonyMain := harmonyOffset mainCodons root scale mainBeats timeOffset,
        bassMain := bassOffset mainCodons root scale mainBeats timeOffset,
        padMain := padOffset mainCodons root scale mainBeats timeOffset }

/-- The start time of the outro section. -/
def FullResult.outroStart (r : FullResult) : ℚ := r.timeOffset + r.mainBeats

/-- All notes landing on track 0 (melody): intro part, main part, outro part,
in the order the source emits them. -/
def FullResult.melodyTrack (r : FullResult) : List Note :=
  (if r.hasIntro then introMelodyNotes r.analysis.rootNote r.analysis.scale else []) ++
  r.melodyMain ++
  (match r.outroStop with
   | some sc => outroMelodyNotes r.analysis.rootNote r.analysis.scale r.outroStart sc
   | none => [])

/-- All notes landing on track 3 (pad). -/
def FullResult.padTrack (r : FullResult) : List Note :=
  (if r.hasIntro then introPadNotes r.analysis.rootNote r.analysis.scale else []) ++
  r.padMain ++
  (match r.outroStop with
   | some _ => outroPadNotes r.analysis.rootNote r.analysis.scale r.outroStart
   | none => [])

/-- Track 0 of the whole result (the simple fallback writes its notes on its
only track, track 0). -/
def GenResult.melodyTrack : GenResult → List Note
  | .simple _ notes => notes
  | .full r => r.melodyTrack

/-- Main-section melody notes (empty for the simple fallback). -/
def GenResult.melodyMainOf : GenResult → List Note
  | .simple _ _ => []
  | .full r => r.melodyMain

/-- Main-section harmony notes. -/
def GenResult.harmonyMainOf : GenResult → List Note
  | .simple _ _ => []
  | .full r => r.harmonyMain

/-- Main-section bass notes. -/
def GenResult.bassMainOf : GenResult → List Note
  | .simple _ _ => []
  | .full r => r.bassMain

/-- Main-section pad notes. -/
def GenResult.padMainOf : GenResult → List Note
  | .simple _ _ => []
  | .full r => r.padMain

/-- Main-section codon list. -/
def GenResult.mainCodonsOf : GenResult → List Codon
  | .simple _ _ => []
  | .full r => r.mainCodons

/-- Whether an intro section was generated. -/
def GenResult.hasIntroB : GenResult → Bool
  | .simple _ _ => false
  | .full r => r.hasIntro

/-- The time offset at which the main section starts. -/
def GenResult.timeOffsetOf : GenResult → ℚ
  | .simple _ _ => 0
  | .full r => r.timeOffset

/-- The main-section length in beats. -/
def GenResult.mainBeatsOf : GenResult → ℚ
  | .simple _ _ => 0
  | .full r => r.mainBeats

/-- The requested piece length in beats, `int(duration * tempo / 60)`. -/
def GenResult.totalBeatsOf : GenResult → ℚ
  | .simple _ _ => 0
  | .full r => r.totalBeats

/-- The stop codon owning the outro, when one was generated. -/
def GenResult.outroStopOf : GenResult → Option Codon
  | .simple _ _ => none
  | .full r => r.outroStop

/-- Two consecutive invocations with identical arguments (the engine keeps no
state between calls: the Python class has no instance attributes and its
methods never assign to `self` or class attributes, so each call is the same
pure computation). -/
def generateTwice (dna : String) (duration : ℚ) : GenResult × GenResult :=
  (generateMidi dna duration, generateMidi dna duration)

/-- The AT-rich sequence with 999 adenines and a single guanine: its AT/GC
base quotient is exactly 999, outside every band of ROOT_KEYS. -/
def bigATSeq : List Char := List.replicate 999 'A' ++ ['G']

theorem clampMel_bounds (p : ℤ) : 48 ≤ clampMel p ∧ clampMel p ≤ 84 := by
  unfold clampMel
  exact ⟨le_max_left _ _, max_le (by norm_num) (min_le_left _ _)⟩

theorem getD_zero_bounds (l : List ℤ) (hb : ∀ x ∈ l, 0 ≤ x ∧ x ≤ 11) (i : ℕ) :
    0 ≤ l.getD i 0 ∧ l.getD i 0 ≤ 11 := by
  rw [List.getD_eq_getElem?_getD]
  cases h : l[i]? with
  | none => simp
  | some x => simpa using hb x (List.getElem?_mem h)

theorem scaleAt_bounds (l : List ℤ) (hb : ∀ x ∈ l, 0 ≤ x ∧ x ≤ 11) (d : ℕ) :
    0 ≤ scaleAt l d ∧ scaleAt l d ≤ 11 := by
  unfold scaleAt
  exact getD_zero_bounds l hb _

theorem count_pair_le (l : List Char) : l.count 'G' + l.count 'C' ≤ l.length := by
  induction l with
  | nil => simp
  | cons c t ih =>
    by_cases h : c = 'G'
    · subst h
      rw [List.count_cons_self, List.count_cons_of_ne (by decide)]
      simp only [List.length_cons]
      omega
    · by_cases h2 : c = 'C'
      · subst h2
        rw [List.count_cons_self, List.count_cons_of_ne (by decide)]
        simp only [List.length_cons]
        omega
      · rw [List.count_cons_of_ne (fun hh => h hh.symm),
          List.count_cons_of_ne (fun hh => h2 hh.symm)]
        simp only [List.length_cons]
        omega

theorem getRootKey_fst_bounds (r : ℚ) : 0 ≤ (getRootKey r).1 ∧ (getRootKey r).1 ≤ 11 := by
  simp only [getRootKey, ROOT_KEYS, scanBandsO]
  split_ifs <;> simp

theorem getMode_scale_bounds (r : ℚ) : ∀ x ∈ (getMode r).1, 0 ≤ x ∧ x ≤ 11 := by
  simp only [getMode, MODES, scanBandsO]
  split_ifs <;> decide

theorem analyze_rootNote (s : String) :
    (analyze s).rootNote =
      if s.length < 3 then 0 else (getRootKey (atGcOf (upperSeq s))).1 := by
  unfold analyze
  split <;> rfl

theorem analyze_scale (s : String) :
    (analyze s).scale =
      if s.length < 3 then [0, 2, 3, 5, 7, 8, 10] else (getMode (puPyOf (upperSeq s))).1 := by
  unfold analyze
  split <;> rfl

theorem analyze_tempo (s : String) :
    (analyze s).tempo = if s.length < 3 then 72 else tempoOf (upperSeq s) := by
  unfold analyze
  split <;> rfl

theorem analyze_root_bounds (s : String) :
    0 ≤ (analyze s).rootNote ∧ (analyze s).rootNote ≤ 11 := by
  rw [analyze_rootNote]
  split
  · norm_num
  · exact getRootKey_fst_bounds _

theorem analyze_scale_bounds (s : String) :
    ∀ x ∈ (analyze s).scale, 0 ≤ x ∧ x ≤ 11 := by
  rw [analyze_scale]
  split
  · decide
  · exact getMode_scale_bounds _

theorem simpleAux_pitch_bounds (a : Analysis) (d : ℚ)
    (hr : 0 ≤ a.rootNote ∧ a.rootNote ≤ 11) (hs : ∀ x ∈ a.scale, 0 ≤ x ∧ x ≤ 11) :
    ∀ (cs : List Char) (t : ℕ) (n : Note),
      n ∈ simpleAux a d cs t → 48 ≤ n.pitch ∧ n.pitch ≤ 84 := by
  intro cs
  induction cs with
  | nil => intro t n h; simp [simpleAux] at h
  | cons c rest ih =>
    intro t n h
    rw [simpleAux] at h
    split_ifs at h with h1 h2
    · simp at h
    · rcases List.mem_cons.mp h with h | h
      · subst h
        have := scaleAt_bounds a.scale hs (fbDegree c)
        simp only
        omega
      · exact ih _ _ h
    · exact ih _ _ h

theorem melodyPitch_bounds (P : MelParams) (c : Codon) (ctx : MelCtx) :
    48 ≤ melodyPitch P c ctx ∧ melodyPitch P c ctx ≤ 84 := by
  simp only [melodyPitch]
  split
  · exact clampMel_bounds _
  · exact clampMel_bounds _

theorem melodyAux_pitch_bounds (P : MelParams) :
    ∀ (cs : List Codon) (idx : ℕ) (ctx : MelCtx) (n : Note),
      n ∈ melodyAux P cs idx ctx → 48 ≤ n.pitch ∧ n.pitch ≤ 84 := by
  intro cs
  induction cs with
  | nil => intro idx ctx n h; simp [melodyAux] at h
  | cons c rest ih =>
    intro idx ctx n h
    rw [melodyAux] at h
    split_ifs at h with h1 h2 h3
    · exact ih _ _ _ h
    · exact ih _ _ _ h
    · rcases List.mem_cons.mp h with h | h
      · subst h
        exact melodyPitch_bounds P c ctx
      · exact ih _ _ _ h
    · simp at h

theorem introMelody_pitch_bounds (root : ℤ) (scale : List ℤ) :
    ∀ n ∈ introMelodyNotes root scale, 48 ≤ n.pitch ∧ n.pitch ≤ 84 := by
  intro n h
  unfold introMelodyNotes at h
  fin_cases h <;> exact clampMel_bounds _

theorem outroMelody_pitch_bounds (root : ℤ) (scale : List ℤ) (start : ℚ) (sc : Codon) :
    ∀ n ∈ outroMelodyNotes root scale start sc, 48 ≤ n.pitch ∧ n.pitch ≤ 84 := by
  intro n h
  unfold outroMelodyNotes at h
  simp only [List.mem_map] at h
  obtain ⟨i, _, rfl⟩ := h
  exact clampMel_bounds _

theorem melodyOffset_pitch_bounds (codons : List Codon) (root : ℤ) (scale : List ℤ)
    (totalBeats : ℚ) (motifPats : List (List Char)) (timeOffset : ℚ) :
    ∀ n ∈ melodyOffset codons root scale totalBeats motifPats timeOffset,
      48 ≤ n.pitch ∧ n.pitch ≤ 84 := by
  intro n h
  unfold melodyOffset at h
  split_ifs at h with h1
  · simp at h
  · exact melodyAux_pitch_bounds _ _ _ _ _ h

theorem melodyTrack_pitch_bounds (dna : String) (d : ℚ) :
    ∀ n ∈ (generateMidi dna d).melodyTrack, 48 ≤ n.pitch ∧ n.pitch ≤ 84 := by
  intro n h
  simp only [generateMidi] at h
  split at h
  · exact simpleAux_pitch_bounds _ _ (analyze_root_bounds dna) (analyze_scale_bounds dna) _ _ _ h
  · simp only [GenResult.melodyTrack, FullResult.melodyTrack] at h
    rcases List.mem_append.mp h with h | h
    · rcases List.mem_append.mp h with h | h
      · split_ifs at h with h2
        · exact introMelody_pitch_bounds _ _ _ h
        · simp at h
      · exact melodyOffset_pitch_bounds _ _ _ _ _ _ _ h
    · split at h
      · exact outroMelody_pitch_bounds _ _ _ _ _ h
      · simp at h

theorem chain36_of_bounds (l : List Note) (hb : ∀ n ∈ l, 48 ≤ n.pitch ∧ n.pitch ≤ 84) :
    l.Chain' (fun a b => (a.pitch - b.pitch).natAbs ≤ 36) := by
  induction l with
  | nil => simp
  | cons a t ih =>
    cases t with
    | nil => simp
    | cons b t2 =>
      rw [List.chain'_cons]
      refine ⟨?_, ih (fun n hn => hb n (List.mem_cons_of_mem _ hn))⟩
      have ha := hb a (by simp)
      have hb2 := hb b (by simp)
      omega

theorem padAux_inv (codons : List Codon) (root : ℤ) (scale : List ℤ) (endTime : ℚ) :
    ∀ (fuel idx : ℕ) (t : ℚ) (n : Note),
      n ∈ padAux codons root scale endTime fuel idx t → n.dur = 8 ∧ n.time < endTime := by
  intro fuel
  induction fuel with
  | zero => intro idx t n h; simp [padAux] at h
  | succ f ih =>
    intro idx t n h
    rw [padAux] at h
    split_ifs at h with h1 h2
    · exact ih _ _ _ h
    · rcases List.mem_append.mp h with h | h
      · simp only [List.mem_map] at h
        obtain ⟨off, _, rfl⟩ := h
        exact ⟨rfl, h1⟩
      · exact ih _ _ _ h
    · simp at h

theorem padOffset_inv (codons : List Codon) (root : ℤ) (scale : List ℤ)
    (totalBeats timeOffset : ℚ) :
    ∀ n ∈ padOffset codons root scale totalBeats timeOffset,
      n.dur = 8 ∧ n.time < timeOffset + totalBeats := by
  intro n h
  unfold padOffset at h
  split_ifs at h with h1
  · simp at h
  · exact padAux_inv _ _ _ _ _ _ _ _ h

theorem simpleAux_ne_nil_iff (a : Analysis) (d : ℚ) :
    ∀ (cs : List Char) (t : ℕ),
      simpleAux a d cs t ≠ [] ↔ ((t : ℚ) < d * 2 ∧ ∃ c ∈ cs, isBase c = true) := by
  intro cs
  induction cs with
  | nil => intro t; simp [simpleAux]
  | cons c rest ih =>
    intro t
    rw [simpleAux]
    split_ifs with h1 h2
    · simp
      intro h
      exact absurd h1 (not_le.mpr h)
    · simp only [ne_eq, List.cons_ne_nil, not_false_eq_true, true_iff]
      exact ⟨not_le.mp h1, c, by simp [h2]⟩
    · rw [ih t]
      constructor
      · rintro ⟨ht, x, hx, hbx⟩
        exact ⟨ht, x, List.mem_cons_of_mem _ hx, hbx⟩
      · rintro ⟨ht, x, hx, hbx⟩
        rcases List.mem_cons.mp hx with rfl | hx
        · exact absurd hbx (by simpa using h2)
        · exact ⟨ht, x, hx, hbx⟩

theorem firstStartAux_ge (cs : List Codon) :
    ∀ (i j : ℕ), firstStartAux cs i = some j → i ≤ j := by
  induction cs with
  | nil => intro i j h; simp [firstStartAux] at h
  | cons c rest ih =>
    intro i j h
    rw [firstStartAux] at h
    split_ifs at h with h1
    · simp at h
      omega
    · have := ih (i + 1) j h
      omega

theorem hasIntro_iff (cods : List Codon) :
    ((findStructureCodons cods).hasStart &&
        decide ((findStructureCodons cods).firstStart = some 0)) = true ↔
      cods.head? = some (cd "ATG") := by
  cases cods with
  | nil => simp [findStructureCodons, firstStartAux]
  | cons c rest =>
    simp only [findStructureCodons, firstStartAux, List.head?]
    split_ifs with h1
    · simp [h1]
    · simp only [Bool.and_eq_true, decide_eq_true_eq, Option.some.injEq]
      constructor
      · rintro ⟨_, h0⟩
        exact absurd (firstStartAux_ge rest 1 0 h0) (by omega)
      · intro h
        exact absurd h h1

theorem tempoOf_range (seq : List Char) (hL : 0 < seq.length) :
    60 ≤ tempoOf seq ∧ tempoOf seq ≤ 100 := by
  unfold tempoOf gcContentOf pyTrunc
  have hL0 : (0 : ℚ) < (seq.length : ℚ) := by exact_mod_cast hL
  have hg0 : (0 : ℚ) ≤ (gcCountOf seq : ℚ) := by positivity
  have hgle : (gcCountOf seq : ℚ) ≤ (seq.length : ℚ) := by
    have := count_pair_le seq
    unfold gcCountOf
    exact_mod_cast this
  have hdiv0 : (0 : ℚ) ≤ (gcCountOf seq : ℚ) / (seq.length : ℚ) := by positivity
  have hdiv1 : (gcCountOf seq : ℚ) / (seq.length : ℚ) ≤ 1 := by
    rw [div_le_one hL0]; exact hgle
  have h60 : (60 : ℚ) ≤ 60 + (gcCountOf seq : ℚ) / (seq.length : ℚ) * 100 / 100 * 40 := by
    nlinarith
  have h100 : 60 + (gcCountOf seq : ℚ) / (seq.length : ℚ) * 100 / 100 * 40 ≤ 100 := by
    nlinarith
  rw [if_pos (by linarith)]
  constructor
  · exact Int.le_floor.mpr (by exact_mod_cast h60)
  · calc ⌊60 + (gcCountOf seq : ℚ) / (seq.length : ℚ) * 100 / 100 * 40⌋
        ≤ ⌊(100 : ℚ)⌋ := Int.floor_le_floor h100
      _ = 100 := by norm_num

/-- C3 (corrected): the analysis tempo of a sequence of length at least 3 is
`int(60 + (GC% / 100) * 40)`, hence always within [60, 100] BPM — not the
claimed `floor(65 + (GC% / 100) * 30)` with range [65, 95]. -/
theorem C3_tempo_range (s : String) (h3 : 3 ≤ s.length) :
    (analyze s).tempo = tempoOf (upperSeq s) ∧
    60 ≤ (analyze s).tempo ∧ (analyze s).tempo ≤ 100 := by
  have hn : ¬ s.length < 3 := by omega
  have ht : (analyze s).tempo = tempoOf (upperSeq s) := by rw [analyze_tempo, if_neg hn]
  have hlist : s.toList.length = s.length := rfl
  have hlen : 0 < (upperSeq s).length := by
    unfold upperSeq
    rw [List.length_map, hlist]
    omega
  refine ⟨ht, ?_, ?_⟩ <;> rw [ht]
  · exact (tempoOf_range _ hlen).1
  · exact (tempoOf_range _ hlen).2

/-- C3 witness: the range theorem instantiated at the concrete sequence
"TTT" (tempo 60). -/
theorem C3_tempo_range_witness :
    (analyze "TTT").tempo = tempoOf (upperSeq "TTT") ∧
    60 ≤ (analyze "TTT").tempo ∧ (analyze "TTT").tempo ≤ 100 :=
  C3_tempo_range "TTT" (by decide)

/-- C3 counterexample: for the all-A sequence "AAA" (GC% = 0) the code
computes tempo 60, while the claimed formula floor(65 + (GC%/100)*30) gives
65; the claimed lower bound 65 is violated. -/
theorem C3_counterexample :
    (analyze "AAA").tempo = 60 ∧
    pyTrunc (65 + (analyze "AAA").gc / 100 * 30) = 65 ∧
    (analyze "AAA").tempo ≠ pyTrunc (65 + (analyze "AAA").gc / 100 * 30) := by
  refine ⟨by decide, by decide, by decide⟩

/-- C4 (corrected): for input shorter than 3 characters, generation returns
the fixed default Analysis together with the single-track fallback score;
that score is non-empty exactly when the sequence contains at least one valid
base and the requested duration is positive (so it is empty for the empty
sequence, against the claim's unconditional non-emptiness). -/
theorem C4_short_fallback (s : String) (d : ℚ) (h : s.length < 3) :
    generateMidi s d = .simple defaultAnalysis (simpleNotes s d defaultAnalysis) ∧
    (simpleNotes s d defaultAnalysis ≠ [] ↔
      ((∃ c ∈ upperSeq s, isBase c = true) ∧ 0 < d)) := by
  have ha : analyze s = defaultAnalysis := by unfold analyze; rw [if_pos h]
  constructor
  · simp only [generateMidi, ha]
    rw [if_pos (by decide)]
  · unfold simpleNotes
    rw [simpleAux_ne_nil_iff]
    constructor
    · rintro ⟨hd, hc⟩
      refine ⟨hc, ?_⟩
      push_cast at hd
      linarith
    · rintro ⟨hc, hd⟩
      refine ⟨?_, hc⟩
      push_cast
      linarith

/-- C4 witness: the short-sequence theorem instantiated at "AG" with
duration 10 (two valid bases, so the fallback is non-empty). -/
theorem C4_short_fallback_witness :
    generateMidi "AG" 10 = .simple defaultAnalysis (simpleNotes "AG" 10 defaultAnalysis) ∧
    simpleNotes "AG" 10 defaultAnalysis ≠ [] := by
  have h := C4_short_fallback "AG" 10 (by decide)
  exact ⟨h.1, h.2.mpr ⟨⟨'A', by decide, by decide⟩, by norm_num⟩⟩

/-- C4 counterexample: for the empty sequence the fallback score has no notes
at all, so its only track carries zero notes, contradicting the claim that
every track carries at least one note even for degenerate input. -/
theorem C4_counterexample :
    generateMidi "" 10 = .simple defaultAnalysis [] ∧
    (generateMidi "" 10).melodyTrack = [] := by
  refine ⟨by decide, by decide⟩

/-- C5 (confirmed): generation is deterministic. The engine is embedded as a
pure function of (sequence, duration) — faithful because the source class
holds only read-only class-level tables, defines no instance attributes and
never assigns to `self` or class state — so two invocations with identical
arguments, as performed by `generateTwice`, produce identical results. -/
theorem C5_deterministic (dna : String) (duration : ℚ) :
    (generateTwice dna duration).1 = (generateTwice dna duration).2 ∧
    analyze dna = analyze dna := ⟨rfl, rfl⟩

/-- C9 (confirmed): the codon table has exactly 64 entries with pairwise
distinct codon keys, every one of the 4×4×4 base triples is present, and the
spot checks of the claim hold: ATG→M, TAA/TAG/TGA→stop, GGG→G. -/
theorem C9_codon_table :
    CODON_TABLE.length = 64 ∧
    (CODON_TABLE.map Prod.fst).Nodup ∧
    ((cd "ATGC").all fun b1 => (cd "ATGC").all fun b2 => (cd "ATGC").all fun b3 =>
      (CODON_TABLE.lookup [b1, b2, b3]).isSome) = true ∧
    CODON_TABLE.lookup (cd "ATG") = some 'M' ∧
    CODON_TABLE.lookup (cd "TAA") = some '*' ∧
    CODON_TABLE.lookup (cd "TAG") = some '*' ∧
    CODON_TABLE.lookup (cd "TGA") = some '*' ∧
    CODON_TABLE.lookup (cd "GGG") = some 'G' := by decide

/-- C6 (corrected): the seven ROOT_KEYS bands are contiguous, non-overlapping
and cover exactly [0, 999) — not all of [0, ∞): every quotient in [0, 999)
lies in exactly one band, while any quotient at least 999 matches no band and
takes the defensive fallback root 0 ('C'). -/
theorem C6_bands :
    (∀ q : ℚ, 0 ≤ q → q < 999 →
      ∃ b ∈ ROOT_KEYS, (b.1.1 ≤ q ∧ q < b.1.2) ∧
        ∀ b2 ∈ ROOT_KEYS, (b2.1.1 ≤ q ∧ q < b2.1.2) → b2 = b) ∧
    (∀ q : ℚ, 999 ≤ q → scanBandsO q ROOT_KEYS = none ∧ getRootKey q = (0, "C")) := by
  constructor
  · intro q h0 h999
    rcases lt_or_le q 0.7 with h1 | h1
    · refine ⟨((0, 0.7), (11, "B")), by norm_num [ROOT_KEYS], ⟨h0, h1⟩, ?_⟩
      intro b2 hb2 hc
      fin_cases hb2 <;> first | rfl | (exfalso; norm_num at hc h1; linarith [hc.1, hc.2])
    · rcases lt_or_le q 0.85 with h2 | h2
      · refine ⟨((0.7, 0.85), (4, "E")), by norm_num [ROOT_KEYS], ⟨h1, h2⟩, ?_⟩
        intro b2 hb2 hc
        fin_cases hb2 <;>
          first | rfl | (exfalso; norm_num at hc h1 h2; rcases hc with ⟨ha, hb⟩; linarith)
      · rcases lt_or_le q 1.0 with h3 | h3
        · refine ⟨((0.85, 1.0), (9, "A")), by norm_num [ROOT_KEYS], ⟨h2, h3⟩, ?_⟩
          intro b2 hb2 hc
          fin_cases hb2 <;>
            first | rfl | (exfalso; norm_num at hc h2 h3; rcases hc with ⟨ha, hb⟩; linarith)
        · rcases lt_or_le q 1.15 with h4 | h4
          · refine ⟨((1.0, 1.15), (2, "D")), by norm_num [ROOT_KEYS], ⟨h3, h4⟩, ?_⟩
            intro b2 hb2 hc
            fin_cases hb2 <;>
              first | rfl | (exfalso; norm_num at hc h3 h4; rcases hc with ⟨ha, hb⟩; linarith)
          · rcases lt_or_le q 1.3 with h5 | h5
            · refine ⟨((1.15, 1.3), (7, "G")), by norm_num [ROOT_KEYS], ⟨h4, h5⟩, ?_⟩
              intro b2 hb2 hc
              fin_cases hb2 <;>
                first | rfl | (exfalso; norm_num at hc h4 h5; rcases hc with ⟨ha, hb⟩; linarith)
            · rcases lt_or_le q 1.5 with h6 | h6
              · refine ⟨((1.3, 1.5), (0, "C")), by norm_num [ROOT_KEYS], ⟨h5, h6⟩, ?_⟩
                intro b2 hb2 hc
                fin_cases hb2 <;>
                  first | rfl | (exfalso; norm_num at hc h5 h6; rcases hc with ⟨ha, hb⟩; linarith)
              · refine ⟨((1.5, 999), (5, "F")), by norm_num [ROOT_KEYS], ⟨h6, h999⟩, ?_⟩
                intro b2 hb2 hc
                fin_cases hb2 <;>
                  first | rfl | (exfalso; norm_num at hc h6; rcases hc with ⟨ha, hb⟩; linarith)
  · intro q h
    have hscan : scanBandsO q ROOT_KEYS = none := by
      simp only [ROOT_KEYS, scanBandsO]
      split_ifs with h1 h2 h3 h4 h5 h6 h7 <;>
        first
          | rfl
          | (exfalso; norm_num at *; linarith)
    refine ⟨hscan, ?_⟩
    unfold getRootKey
    rw [hscan]
    rfl

/-- C6 witness: the band theorem instantiated at quotient 1 (inside a band)
and quotient 1000 (beyond all bands, fallback taken). -/
theorem C6_bands_witness :
    (∃ b ∈ ROOT_KEYS, (b.1.1 ≤ (1 : ℚ) ∧ (1 : ℚ) < b.1.2) ∧
      ∀ b2 ∈ ROOT_KEYS, (b2.1.1 ≤ (1 : ℚ) ∧ (1 : ℚ) < b2.1.2) → b2 = b) ∧
    (scanBandsO (1000 : ℚ) ROOT_KEYS = none ∧ getRootKey 1000 = (0, "C")) :=
  ⟨C6_bands.1 1 (by norm_num) (by norm_num), C6_bands.2 1000 (by norm_num)⟩

set_option maxRecDepth 8000 in
/-- C6 counterexample: the 1000-base sequence of 999 adenines and one guanine
has AT/GC quotient exactly 999, which falls in no band of ROOT_KEYS, so the
defensive fallback to root 0 ('C') is taken for a reachable quotient — the
bands do not cover [0, ∞) and the fallback is not dead code. -/
theorem C6_counterexample :
    atGcOf bigATSeq = 999 ∧ scanBandsO (999 : ℚ) ROOT_KEYS = none ∧
    getRootKey 999 = (0, "C") := by
  refine ⟨by decide, by decide, by decide⟩

/-- C1 (corrected): the source applies no 5-semitone stepwise-motion clamp;
the only bound on consecutive melody pitches is the one induced by the
[48, 84] range clamp, namely 36 semitones, which holds for every pair of
consecutive notes on track 0 of every generated score. -/
theorem C1_leap_bound (dna : String) (d : ℚ) :
    ((generateMidi dna d).melodyTrack).Chain' (fun a b => (a.pitch - b.pitch).natAbs ≤ 36) :=
  chain36_of_bounds _ (melodyTrack_pitch_bounds dna d)

/-- C1 counterexample: for "TATTCTTAT" (nine bases, no stop codons, hence no
rests anywhere on the melody track) the emitted melody pitches are
80, 83, 77: the second and third consecutive notes are 6 > 5 semitones
apart, so the claimed stepwise-motion invariant does not hold. -/
theorem C1_counterexample :
    ((analyze "TATTCTTAT").codons.all fun c =>
      decide (CODON_TABLE.lookup c ≠ some '*')) = true ∧
    ((generateMidi "TATTCTTAT" 30).melodyTrack.map Note.pitch) = [80, 83, 77] ∧
    5 < ((83 : ℤ) - 77).natAbs := by
  refine ⟨by decide, by decide, by decide⟩

/-- C2 (corrected): every pitch emitted on the melody track of any generated
score lies in the MIDI range [48, 84]; the scale-membership half of the
claim is dropped, because the final range clamp can move an already
scale-snapped pitch off-scale (see the counterexample). -/
theorem C2_melody_range (dna : String) (d : ℚ) :
    ∀ n ∈ (generateMidi dna d).melodyTrack, 48 ≤ n.pitch ∧ n.pitch ≤ 84 :=
  melodyTrack_pitch_bounds dna d

/-- C2 witness: the range theorem instantiated at a concrete emitted note of
the score generated for "GGGGGGTGA" with duration 30. -/
theorem C2_melody_range_witness :
    48 ≤ ({ pitch := 84, time := 37, dur := 27/25, vol := 50 } : Note).pitch ∧
    ({ pitch := 84, time := 37, dur := 27/25, vol := 50 } : Note).pitch ≤ 84 :=
  C2_melody_range "GGGGGGTGA" 30
    { pitch := 84, time := 37, dur := 27/25, vol := 50 } (by decide)

/-- C2 counterexample: the score generated for "GGGGGGTGA" (key B, lydian)
emits an outro melody note of pitch 84 on track 0, whose pitch class
relative to the root, (84 - 11) mod 12 = 1, is not a member of the active
lydian scale — the claimed in-scale invariant fails at the clamp boundary. -/
theorem C2_counterexample :
    ({ pitch := 84, time := 37, dur := 27/25, vol := 50 } : Note) ∈
      (generateMidi "GGGGGGTGA" 30).melodyTrack ∧
    (analyze "GGGGGGTGA").rootNote = 11 ∧
    (analyze "GGGGGGTGA").scale = [0, 2, 4, 6, 7, 9, 11] ∧
    ((84 - (analyze "GGGGGGTGA").rootNote) % 12) ∉ (analyze "GGGGGGTGA").scale := by
  refine ⟨by decide, by decide, by decide, by decide⟩

/-- C8 (corrected): every main-section pad chord lasts exactly 8 beats and
starts strictly before the end of the main section; no clamping of the last
pad's duration to the remaining time exists, so the final pad chord may
overhang the piece end by up to 8 beats. -/
theorem C8_pad_shape (dna : String) (d : ℚ) :
    ∀ n ∈ (generateMidi dna d).padMainOf,
      n.dur = 8 ∧
      n.time < (generateMidi dna d).timeOffsetOf + (generateMidi dna d).mainBeatsOf := by
  intro n h
  cases hg : generateMidi dna d with
  | simple a notes =>
    rw [hg] at h
    simp [GenResult.padMainOf] at h
  | full r =>
    rw [hg] at h
    simp only [GenResult.padMainOf] at h
    simp only [GenResult.timeOffsetOf, GenResult.mainBeatsOf]
    simp only [generateMidi] at hg
    split at hg
    · exact absurd hg (by simp)
    · injection hg with hr
      subst hr
      exact padOffset_inv _ _ _ _ _ n h

/-- C8 witness: the pad-shape theorem instantiated at the first pad chord of
the score generated for "ACCACCACC" with duration 42/5 seconds. -/
theorem C8_pad_shape_witness :
    ({ pitch := 65, time := 0, dur := 8, vol := 40 } : Note).dur = 8 ∧
    ({ pitch := 65, time := 0, dur := 8, vol := 40 } : Note).time <
      (generateMidi "ACCACCACC" (42/5)).timeOffsetOf +
      (generateMidi "ACCACCACC" (42/5)).mainBeatsOf :=
  C8_pad_shape "ACCACCACC" (42/5)
    { pitch := 65, time := 0, dur := 8, vol := 40 } (by decide)

/-- C8 counterexample: for "ACCACCACC" with duration 42/5 seconds (12 beats
at tempo 86), the second pad chord starts at beat 8 with duration 8, ending
at beat 16 > 12: a pad note extends past the total piece duration, so no
clamp to the remaining time is applied. -/
theorem C8_counterexample :
    ({ pitch := 65, time := 8, dur := 8, vol := 40 } : Note) ∈
      (generateMidi "ACCACCACC" (42/5)).padMainOf ∧
    (generateMidi "ACCACCACC" (42/5)).totalBeatsOf = 12 ∧
    (generateMidi "ACCACCACC" (42/5)).totalBeatsOf <
      ({ pitch := 65, time := 8, dur := 8, vol := 40 } : Note).time +
      ({ pitch := 65, time := 8, dur := 8, vol := 40 } : Note).dur := by
  refine ⟨by decide, by decide, by decide⟩

/-- C7 (confirmed): for the all-stop-codon sequence "TAATAGTGA", analysis
yields codon count 3 with every amino acid the stop marker; all stop codons
are removed from the main section, so for every requested duration the four
main-section generators emit no notes at all (they take their empty-codon
branches), and the whole melody track consists of exactly the 6 fixed outro
notes owned by the last stop codon TGA. -/
theorem C7_all_stop_boundary (d : ℚ) :
    (analyze "TAATAGTGA").codonCount = 3 ∧
    (analyze "TAATAGTGA").aminoAcids = ['*', '*', '*'] ∧
    (generateMidi "TAATAGTGA" d).mainCodonsOf = [] ∧
    (generateMidi "TAATAGTGA" d).melodyMainOf = [] ∧
    (generateMidi "TAATAGTGA" d).harmonyMainOf = [] ∧
    (generateMidi "TAATAGTGA" d).bassMainOf = [] ∧
    (generateMidi "TAATAGTGA" d).padMainOf = [] ∧
    (generateMidi "TAATAGTGA" d).outroStopOf = some (cd "TGA") ∧
    ((generateMidi "TAATAGTGA" d).melodyTrack).length = 6 := by
  refine ⟨by decide, by decide, rfl, rfl, rfl, rfl, rfl, rfl, rfl⟩

theorem generateMidi_full (dna : String) (d : ℚ) (h : ¬ (analyze dna).codonCount < 3) :
    generateMidi dna d = GenResult.full
      { analysis := analyze dna,
        totalBeats := totalBeatsCalc d (analyze dna).tempo,
        hasIntro := hasIntroOf (analyze dna).codons,
        timeOffset := timeOffsetCalc (analyze dna).codons,
        mainCodons := mainCodonsCalc (analyze dna).codons,
        mainBeats := mainBeatsCalc (analyze dna).codons (totalBeatsCalc d (analyze dna).tempo),
        outroStop := outroStopCalc (analyze dna).codons,
        melodyMain := melodyOffset (mainCodonsCalc (analyze dna).codons)
          (analyze dna).rootNote (analyze dna).scale
          (mainBeatsCalc (analyze dna).codons (totalBeatsCalc d (analyze dna).tempo))
          ((analyze dna).motifs.map (·.pattern)) (timeOffsetCalc (analyze dna).codons),
        harmonyMain := harmonyOffset (mainCodonsCalc (analyze dna).codons)
          (analyze dna).rootNote (analyze dna).scale
          (mainBeatsCalc (analyze dna).codons (totalBeatsCalc d (analyze dna).tempo))
          (timeOffsetCalc (analyze dna).codons),
        bassMain := bassOffset (mainCodonsCalc (analyze dna).codons)
          (analyze dna).rootNote (analyze dna).scale
          (mainBeatsCalc (analyze dna).codons (totalBeatsCalc d (analyze dna).tempo))
          (timeOffsetCalc (analyze dna).codons),
        padMain := padOffset (mainCodonsCalc (analyze dna).codons)
          (analyze dna).rootNote (analyze dna).scale
          (mainBeatsCalc (analyze dna).codons (totalBeatsCalc d (analyze dna).tempo))
          (timeOffsetCalc (analyze dna).codons) } := by
  simp only [generateMidi]
  rw [if_neg h]

theorem hasIntroOf_iff (cods : List Codon) :
    hasIntroOf cods = true ↔ cods.head? = some (cd "ATG") := by
  unfold hasIntroOf
  exact hasIntro_iff cods

theorem hasStop_eq (cods : List Codon) :
    (findStructureCodons cods).hasStop = !(cods.filter isStop).isEmpty := rfl

theorem lastStop_eq (cods : List Codon) :
    (findStructureCodons cods).lastStop = (cods.filter isStop).getLast? := rfl

theorem mainCodonsCalc_no_stop (cods : List Codon) (h : (cods.filter isStop) ≠ []) :
    ((mainCodonsCalc cods).all fun c => !(isStop c)) = true := by
  have hemp : (cods.filter isStop).isEmpty = false := by
    cases hl : cods.filter isStop <;> simp_all
  unfold mainCodonsCalc
  rw [hasStop_eq, hemp]
  simp only [Bool.not_false, if_true]
  rw [List.all_eq_true]
  intro c hc
  exact (List.mem_filter.mp hc).2

/-- C10 (confirmed): implicit structural sections of `generate_midi`. If the
first codon is ATG, an intro is generated, the main section starts at the
fixed 8-beat offset, and that initial ATG is excluded from the main-section
codons; otherwise no intro and no offset. If any stop codon occurs, every
stop codon is removed from the main section, the outro is owned by the last
stop codon and follows right after the main section (whose length is the
total minus the intro offset minus the 8 reserved outro beats, floored at
8), with the outro's melody appended after the main melody; the outro's note
volumes and tempo feel are selected by the identity of that stop codon
(TAA, TAG or TGA). -/
theorem C10_structure (dna : String) (d : ℚ) (h3 : 3 ≤ (analyze dna).codonCount) :
    ((analyze dna).codons.head? = some (cd "ATG") →
      (generateMidi dna d).hasIntroB = true ∧
      (generateMidi dna d).timeOffsetOf = 8 ∧
      (generateMidi dna d).mainCodonsOf =
        (if ((analyze dna).codons.filter isStop).isEmpty then (analyze dna).codons.drop 1
         else ((analyze dna).codons.drop 1).filter (fun c => !(isStop c)))) ∧
    (¬((analyze dna).codons.head? = some (cd "ATG")) →
      (generateMidi dna d).hasIntroB = false ∧
      (generateMidi dna d).timeOffsetOf = 0 ∧
      (generateMidi dna d).mainCodonsOf =
        (if ((analyze dna).codons.filter isStop).isEmpty then (analyze dna).codons
         else (analyze dna).codons.filter (fun c => !(isStop c)))) ∧
    (((analyze dna).codons.filter isStop) ≠ [] →
      (generateMidi dna d).outroStopOf = ((analyze dna).codons.filter isStop).getLast? ∧
      ((generateMidi dna d).mainCodonsOf.all fun c => !(isStop c)) = true ∧
      (generateMidi dna d).mainBeatsOf =
        max 8 ((generateMidi dna d).totalBeatsOf - (generateMidi dna d).timeOffsetOf - 8)) ∧
    (((analyze dna).codons.filter isStop) = [] →
      (generateMidi dna d).outroStopOf = none) ∧
    (∀ sc, (generateMidi dna d).outroStopOf = some sc →
      (generateMidi dna d).melodyTrack =
        (if (generateMidi dna d).hasIntroB then
          introMelodyNotes (analyze dna).rootNote (analyze dna).scale else []) ++
        (generateMidi dna d).melodyMainOf ++
        outroMelodyNotes (analyze dna).rootNote (analyze dna).scale
          ((generateMidi dna d).timeOffsetOf + (generateMidi dna d).mainBeatsOf) sc) ∧
    introBeats = 8 ∧
    outroVols (cd "TAA") = [60, 50, 40, 30] ∧
    outroVols (cd "TAG") = [70, 60, 50, 40] ∧
    outroVols (cd "TGA") = [50, 45, 40, 35] ∧
    tempoFeel (cd "TAA") = 1 ∧ tempoFeel (cd "TAG") = 1 ∧ tempoFeel (cd "TGA") = 6/5 := by
  have hnc : ¬ (analyze dna).codonCount < 3 := by omega
  rw [generateMidi_full dna d hnc]
  simp only [GenResult.hasIntroB, GenResult.timeOffsetOf, GenResult.mainCodonsOf,
    GenResult.outroStopOf, GenResult.mainBeatsOf, GenResult.totalBeatsOf,
    GenResult.melodyMainOf, GenResult.melodyTrack, FullResult.melodyTrack,
    FullResult.outroStart]
  refine ⟨?_, ?_, ?_, ?_, ?_, rfl, by decide, by decide, by decide,
    by decide, by decide, by decide⟩
  · intro hhead
    have hI : hasIntroOf (analyze dna).codons = true := (hasIntroOf_iff _).mpr hhead
    refine ⟨hI, by simp [timeOffsetCalc, hI, introBeats], ?_⟩
    unfold mainCodonsCalc
    rw [hI, hasStop_eq]
    cases hemp : ((analyze dna).codons.filter isStop).isEmpty <;> simp [hemp]
  · intro hhead
    have hI : hasIntroOf (analyze dna).codons = false := by
      cases hb : hasIntroOf (analyze dna).codons
      · rfl
      · exact absurd ((hasIntroOf_iff _).mp hb) hhead
    refine ⟨hI, by simp [timeOffsetCalc, hI], ?_⟩
    unfold mainCodonsCalc
    rw [hI, hasStop_eq]
    cases hemp : ((analyze dna).codons.filter isStop).isEmpty <;> simp [hemp]
  · intro hne
    have hemp : ((analyze dna).codons.filter isStop).isEmpty = false := by
      cases hl : (analyze dna).codons.filter isStop <;> simp_all
    refine ⟨?_, mainCodonsCalc_no_stop _ hne, ?_⟩
    · unfold outroStopCalc
      rw [hasStop_eq, hemp, lastStop_eq]
      simp
    · unfold mainBeatsCalc timeOffsetCalc
      rw [hasStop_eq, hemp]
      simp
  · intro hemp0
    have hemp : ((analyze dna).codons.filter isStop).isEmpty = true := by simp [hemp0]
    unfold outroStopCalc
    rw [hasStop_eq, hemp]
    simp
  · intro sc hsc
    rw [hsc]

/-- C10 witness: the structure theorem instantiated at "ATGGGGTAA" (codons
ATG, GGG, TAA) with duration 30: intro present, offset 8, main section
reduced to the single codon GGG, outro owned by TAA. -/
theorem C10_structure_witness :
    (generateMidi "ATGGGGTAA" 30).hasIntroB = true ∧
    (generateMidi "ATGGGGTAA" 30).timeOffsetOf = 8 ∧
    (generateMidi "ATGGGGTAA" 30).mainCodonsOf = [cd "GGG"] ∧
    (generateMidi "ATGGGGTAA" 30).outroStopOf = some (cd "TAA") := by
  have h := C10_structure "ATGGGGTAA" 30 (by decide)
  obtain ⟨h1, _, h3, _, _⟩ := h
  have ha := h1 (by decide)
  have hb := h3 (by decide)
  refine ⟨ha.1, ha.2.1, ?_, ?_⟩
  · rw [ha.2.2]
    decide
  · rw [hb.1]
    decide
